import Mathlib

/-!
Verification of the morning-webhook repository: a shallow embedding of its
two webhook handlers (src/api/morningWebhook.js and src/unnamed/part_002)
and of the Base44 SDK surface the repository ships declarations and
documentation for (src/unnamed/part_001, src/unnamed/part_000).
-/

namespace MorningWebhook

/-- Optional payer object of a webhook payload, with its optional email. -/
structure Payer where
  email : Option String
deriving Repr, DecidableEq

/-- Parsed JSON body of a webhook request: an object whose payer field may
be absent. -/
structure Payload where
  payer : Option Payer
deriving Repr, DecidableEq

/-- Email reached by the optional chain payload?.payer?.email. -/
def payloadEmail (p : Payload) : Option String :=
  p.payer.bind Payer.email

/-- JavaScript truthiness on an optional string: undefined, null and the
empty string are falsy, so both handlers treat an empty email like a
missing one. -/
def jsTruthy : Option String → Option String
  | some s => if s = "" then none else some s
  | none => none

/-- JavaScript template-literal rendering of a possibly undefined string
field. -/
def renderJs : Option String → String
  | some s => s
  | none => "undefined"

/-- Row returned by the User entity filter: the id the handler updates and
the full_name it echoes in the success message. -/
structure User where
  id : String
  full_name : Option String
deriving Repr, DecidableEq

/-- Error raised by a rejected SDK call, as observed by the handler's
catch block. -/
structure SdkErr where
  message : String
deriving Repr, DecidableEq

/-- Behavior of the backend the morning handler talks to through the SDK:
the results of base44.entities.User.filter and base44.entities.User.update. -/
structure Backend where
  filterUser : String → Except SdkErr (List User)
  updateUser : String → List (String × String) → Except SdkErr User

/-- One SDK call issued by a handler, recorded in order. -/
inductive BackendCall
  | filter (email : String)
  | update (id : String) (fields : List (String × String))
deriving Repr, DecidableEq

/-- HTTP response a handler sends: status code, text body, and the Allow
header when the handler sets one. -/
structure Resp where
  status : Nat
  body : String
  allow : Option (List String)
deriving Repr, DecidableEq

/-- Incoming request as the handlers see it: the method string and the
parsed JSON body. none stands for a body that does not parse to an object
(for the morning handler, a JSON.parse failure; for the simple handler, a
missing req.body). -/
structure Req where
  method : String
  body : Option Payload
deriving Repr, DecidableEq

/-- The handler of src/api/morningWebhook.js: GET echoes a fixed text; POST
parses the body, requires a truthy payer.email (the code answers 400
Email not found in payload otherwise), filters User by that email, answers
404 when no user matches, otherwise updates the first match to
subscription_type premium and answers 200; any thrown error yields 500;
every other method gets 405 with an Allow header. The second component
lists the SDK calls issued, in order. -/
def morningHandler (be : Backend) (req : Req) : Resp × List BackendCall :=
  if req.method = "GET" then
    ({ status := 200, body := "GET is working", allow := none }, [])
  else if req.method = "POST" then
    match req.body with
    | none => ({ status := 500, body := "Internal server error", allow := none }, [])
    | some payload =>
      match jsTruthy (payloadEmail payload) with
      | none =>
        ({ status := 400, body := "Email not found in payload", allow := none }, [])
      | some email =>
        match be.filterUser email with
        | .error _ =>
          ({ status := 500, body := "Internal server error", allow := none },
           [BackendCall.filter email])
        | .ok [] =>
          ({ status := 404, body := "User not found", allow := none },
           [BackendCall.filter email])
        | .ok (u :: _) =>
          match be.updateUser u.id [("subscription_type", "premium")] with
          | .error _ =>
            ({ status := 500, body := "Internal server error", allow := none },
             [BackendCall.filter email,
              BackendCall.update u.id [("subscription_type", "premium")]])
          | .ok _ =>
            ({ status := 200,
               body := "User " ++ renderJs u.full_name ++ " updated to premium",
               allow := none },
             [BackendCall.filter email,
              BackendCall.update u.id [("subscription_type", "premium")]])
  else
    ({ status := 405, body := "Method " ++ req.method ++ " Not Allowed",
       allow := some ["POST", "GET"] }, [])

/-- The handler of src/unnamed/part_002: GET echoes the same fixed text;
POST answers 200 with Webhook received for followed by the email, or by
unknown when body?.payer?.email is falsy; every other method gets 405 with
an Allow header. It never touches a backend, so its call list is empty. -/
def simpleHandler (req : Req) : Resp × List BackendCall :=
  if req.method = "GET" then
    ({ status := 200, body := "GET is working", allow := none }, [])
  else if req.method = "POST" then
    let email :=
      match jsTruthy (req.body.bind payloadEmail) with
      | some e => e
      | none => "unknown"
    ({ status := 200, body := "Webhook received for " ++ email, allow := none }, [])
  else
    ({ status := 405, body := "Method " ++ req.method ++ " Not Allowed",
       allow := some ["POST", "GET"] }, [])

/-- Concrete user for witnesses. -/
def demoUser : User := { id := "u1", full_name := some "Dana Levi" }

/-- Concrete backend for witnesses: one user matches one email, updates
succeed. -/
def demoBackend : Backend where
  filterUser := fun e => if e = "dana@example.com" then .ok [demoUser] else .ok []
  updateUser := fun i _ => .ok { id := i, full_name := some "Dana Levi" }

/-- Concrete payload for witnesses. -/
def demoPayload : Payload := { payer := some { email := some "dana@example.com" } }

/-- Concrete POST request for witnesses. -/
def demoPostReq : Req := { method := "POST", body := some demoPayload }

/-- Concrete GET request for witnesses. -/
def demoGetReq : Req := { method := "GET", body := none }

/-- Concrete PUT request for witnesses. -/
def demoPutReq : Req := { method := "PUT", body := none }

/-- C2: each of the two webhook handlers answers every GET request with
status 200 and the fixed text GET is working, issuing no backend call. -/
theorem handlers_get_echo (be : Backend) (req : Req) (hm : req.method = "GET") :
    morningHandler be req =
      ({ status := 200, body := "GET is working", allow := none }, []) ∧
    simpleHandler req =
      ({ status := 200, body := "GET is working", allow := none }, []) := by
  constructor <;> simp [morningHandler, simpleHandler, hm]

/-- C2 witness: the GET behavior at a concrete request and backend. -/
theorem handlers_get_echo_witness :
    morningHandler demoBackend demoGetReq =
      ({ status := 200, body := "GET is working", allow := none }, []) ∧
    simpleHandler demoGetReq =
      ({ status := 200, body := "GET is working", allow := none }, []) :=
  handlers_get_echo demoBackend demoGetReq rfl

/-- C8: for every request whose method is neither GET nor POST, each of the
two handlers sets the Allow header to the list POST, GET and answers 405,
issuing no backend call. -/
theorem handlers_other_method_405 (be : Backend) (req : Req)
    (h1 : req.method ≠ "GET") (h2 : req.method ≠ "POST") :
    morningHandler be req =
      ({ status := 405, body := "Method " ++ req.method ++ " Not Allowed",
         allow := some ["POST", "GET"] }, []) ∧
    simpleHandler req =
      ({ status := 405, body := "Method " ++ req.method ++ " Not Allowed",
         allow := some ["POST", "GET"] }, []) := by
  constructor <;> simp [morningHandler, simpleHandler, h1, h2]

/-- C8 witness: the 405 behavior at a concrete PUT request. -/
theorem handlers_other_method_405_witness :
    morningHandler demoBackend demoPutReq =
      ({ status := 405, body := "Method " ++ demoPutReq.method ++ " Not Allowed",
         allow := some ["POST", "GET"] }, []) ∧
    simpleHandler demoPutReq =
      ({ status := 405, body := "Method " ++ demoPutReq.method ++ " Not Allowed",
         allow := some ["POST", "GET"] }, []) :=
  handlers_other_method_405 demoBackend demoPutReq (by decide) (by decide)

/-- Inversion for jsTruthy: a truthy value was present and nonempty. -/
theorem jsTruthy_eq_some {o : Option String} {e : String}
    (h : jsTruthy o = some e) : o = some e ∧ e ≠ "" := by
  cases o with
  | none => exact absurd h (by simp [jsTruthy])
  | some s =>
    by_cases hs : s = ""
    · simp [jsTruthy, hs] at h
    · simp [jsTruthy, hs] at h
      subst h
      exact ⟨rfl, hs⟩

/-- C1: for every POST request to the morning webhook handler whose JSON
body contains a payer email (present and nonempty, which is how the handler
itself tests presence) that matches at least one user returned by the User
entity filter, and whose update call the backend accepts, the handler
issues exactly one filter call by email followed by one update of the
matched user's id setting subscription_type to premium, and responds with
status 200. -/
theorem morning_post_match_updates_premium
    (be : Backend) (req : Req) (payload : Payload) (e : String)
    (u : User) (us : List User) (u2 : User)
    (hm : req.method = "POST")
    (hb : req.body = some payload)
    (he : payloadEmail payload = some e)
    (hne : e ≠ "")
    (hf : be.filterUser e = .ok (u :: us))
    (hu : be.updateUser u.id [("subscription_type", "premium")] = .ok u2) :
    morningHandler be req =
      ({ status := 200,
         body := "User " ++ renderJs u.full_name ++ " updated to premium",
         allow := none },
       [BackendCall.filter e,
        BackendCall.update u.id [("subscription_type", "premium")]]) := by
  simp [morningHandler, hm, hb, he, hne, hf, hu, jsTruthy]

/-- C1 witness: the premium update at a concrete request and backend. -/
theorem morning_post_match_updates_premium_witness :
    morningHandler demoBackend demoPostReq =
      ({ status := 200,
         body := "User " ++ renderJs demoUser.full_name ++ " updated to premium",
         allow := none },
       [BackendCall.filter "dana@example.com",
        BackendCall.update demoUser.id [("subscription_type", "premium")]]) :=
  morning_post_match_updates_premium demoBackend demoPostReq demoPayload
    "dana@example.com" demoUser []
    { id := demoUser.id, full_name := some "Dana Levi" }
    rfl rfl rfl (by decide) rfl rfl

/-- C9: on a POST to the morning webhook handler, a parsed body without a
payer.email is answered 400 before any backend call; a filter returning no
user is answered 404 with no update call; and an update call is issued only
when the filter returned at least one user, on the first such user's id. -/
theorem morning_post_error_paths (be : Backend) (req : Req) (payload : Payload)
    (hm : req.method = "POST") (hb : req.body = some payload) :
    (payloadEmail payload = none →
      morningHandler be req =
        ({ status := 400, body := "Email not found in payload", allow := none },
         [])) ∧
    (∀ e, payloadEmail payload = some e → e ≠ "" → be.filterUser e = .ok [] →
      morningHandler be req =
        ({ status := 404, body := "User not found", allow := none },
         [BackendCall.filter e])) ∧
    (∀ i fs, BackendCall.update i fs ∈ (morningHandler be req).2 →
      ∃ e u us, payloadEmail payload = some e ∧
        be.filterUser e = .ok (u :: us) ∧ i = u.id) := by
  refine ⟨?_, ?_, ?_⟩
  · intro h
    simp [morningHandler, hm, hb, h, jsTruthy]
  · intro e he hne hf
    simp [morningHandler, hm, hb, he, hne, hf, jsTruthy]
  · intro i fs hmem
    rcases hj : jsTruthy (payloadEmail payload) with _ | e
    · simp [morningHandler, hm, hb, hj] at hmem
    · obtain ⟨he, hne⟩ := jsTruthy_eq_some hj
      rcases hf : be.filterUser e with err | users
      · simp [morningHandler, hm, hb, hj, hf] at hmem
      · rcases users with _ | ⟨u, us⟩
        · simp [morningHandler, hm, hb, hj, hf] at hmem
        · refine ⟨e, u, us, he, hf, ?_⟩
          rcases hu : be.updateUser u.id [("subscription_type", "premium")]
            with uerr | u2 <;>
            simp [morningHandler, hm, hb, hj, hf, hu] at hmem <;>
            exact hmem.1

/-- C9 witness: the error paths at a concrete request and backend. -/
theorem morning_post_error_paths_witness :
    (payloadEmail demoPayload = none →
      morningHandler demoBackend demoPostReq =
        ({ status := 400, body := "Email not found in payload", allow := none },
         [])) ∧
    (∀ e, payloadEmail demoPayload = some e → e ≠ "" →
      demoBackend.filterUser e = .ok [] →
      morningHandler demoBackend demoPostReq =
        ({ status := 404, body := "User not found", allow := none },
         [BackendCall.filter e])) ∧
    (∀ i fs, BackendCall.update i fs ∈ (morningHandler demoBackend demoPostReq).2 →
      ∃ e u us, payloadEmail demoPayload = some e ∧
        demoBackend.filterUser e = .ok (u :: us) ∧ i = u.id) :=
  morning_post_error_paths demoBackend demoPostReq demoPayload rfl rfl

/-- Concrete POST request whose payer.email is present but empty. -/
def emptyEmailReq : Req :=
  { method := "POST", body := some { payer := some { email := some "" } } }

/-- C10 counterexample: a POST whose payer.email is the empty string (so
present, not absent) is answered Webhook received for unknown rather than
Webhook received for followed by that email, because the handler tests the
email with JavaScript truthiness; this refutes the claim that unknown is
used only when payer.email is absent. -/
theorem simple_post_empty_email_cex :
    emptyEmailReq.body.bind payloadEmail = some "" ∧
    simpleHandler emptyEmailReq =
      ({ status := 200, body := "Webhook received for unknown", allow := none },
       []) ∧
    "Webhook received for unknown" ≠ "Webhook received for " ++ "" := by
  refine ⟨rfl, rfl, by decide⟩

/-- C10 amended: for every POST request to the simpler webhook handler,
regardless of the body's shape, the handler answers 200 and issues no
backend call; the text is Webhook received for followed by the payer email
when that email is a present nonempty string, and by unknown when the email
is absent or empty. -/
theorem simple_post_always_200 (req : Req) (hm : req.method = "POST") :
    (simpleHandler req).2 = [] ∧
    (simpleHandler req).1.status = 200 ∧
    ((req.body.bind payloadEmail = none ∨ req.body.bind payloadEmail = some "") →
      (simpleHandler req).1.body = "Webhook received for unknown") ∧
    (∀ e, req.body.bind payloadEmail = some e → e ≠ "" →
      (simpleHandler req).1.body = "Webhook received for " ++ e) := by
  refine ⟨by simp [simpleHandler, hm], by simp [simpleHandler, hm], ?_, ?_⟩
  · rintro (h | h) <;> simp [simpleHandler, hm, h, jsTruthy] <;> decide
  · intro e he hne
    simp [simpleHandler, hm, he, hne, jsTruthy]

/-- C10 witness: the amended claim at a concrete request. -/
theorem simple_post_always_200_witness :
    (simpleHandler demoPostReq).2 = [] ∧
    (simpleHandler demoPostReq).1.status = 200 ∧
    ((demoPostReq.body.bind payloadEmail = none ∨
        demoPostReq.body.bind payloadEmail = some "") →
      (simpleHandler demoPostReq).1.body = "Webhook received for unknown") ∧
    (∀ e, demoPostReq.body.bind payloadEmail = some e → e ≠ "" →
      (simpleHandler demoPostReq).1.body = "Webhook received for " ++ e) :=
  simple_post_always_200 demoPostReq rfl

/-- Field names of the ClientConfig interface declared in
src/unnamed/part_001, in declaration order, each with whether the interface
marks it optional. -/
def ClientConfigDecl : List (String × Bool) :=
  [("serverUrl", true), ("appId", false), ("env", true), ("token", true),
   ("requiresAuth", true)]

/-- Option names the Basic Setup example of the README
(src/unnamed/part_000) passes to createClient; the README documents
autoInitAuth there as optional, defaulting to true. -/
def readmeCreateClientOptions : List String :=
  ["serverUrl", "appId", "env", "token", "autoInitAuth"]

/-- C3: the README documents autoInitAuth as a createClient configuration
option, but the ClientConfig interface declared in src/unnamed/part_001
omits it; the declared fields are exactly serverUrl, appId (the one
required field), env, token and requiresAuth. -/
theorem clientConfig_missing_autoInitAuth :
    "autoInitAuth" ∈ readmeCreateClientOptions ∧
    "autoInitAuth" ∉ ClientConfigDecl.map Prod.fst ∧
    ClientConfigDecl.map Prod.fst =
      ["serverUrl", "appId", "env", "token", "requiresAuth"] ∧
    ClientConfigDecl.filter (fun p => !p.2) = [("appId", false)] := by
  refine ⟨by decide, by decide, rfl, rfl⟩

/-- Result shape of an entity operation as declared in
src/unnamed/part_001: a sequence of entities, a single entity, no value, or
an unconstrained value. -/
inductive ResultShape
  | entitySeq
  | entityOne
  | noValue
  | anyValue
deriving Repr, DecidableEq

/-- Operations of the EntityMethods interface in src/unnamed/part_001, in
declaration order, each with its declared result shape. -/
def EntityMethodsDecl : List (String × ResultShape) :=
  [("list", .entitySeq), ("filter", .entitySeq), ("get", .entityOne),
   ("create", .entityOne), ("update", .entityOne), ("delete", .noValue),
   ("deleteMany", .noValue), ("bulkCreate", .entitySeq),
   ("importEntities", .anyValue)]

/-- EntitiesModule of src/unnamed/part_001: its index signature maps every
entity name to the same EntityMethods interface. -/
def entitiesModule : String → List (String × ResultShape) :=
  fun _ => EntityMethodsDecl

/-- Declared result shape of the named operation on an entity handle. -/
def entityOpShape (name : String) (op : String) : Option ResultShape :=
  ((entitiesModule name).find? (fun p => p.1 = op)).map Prod.snd

/-- C4: for every entity name, the synthesized entity handle exposes
exactly the nine operations list, filter, get, create, update, delete,
deleteMany, bulkCreate and importEntities; list and filter resolve with a
sequence of entities, get, create and update with a single entity, and
delete and deleteMany with no value. -/
theorem entity_handle_ops (name : String) :
    (entitiesModule name).map Prod.fst =
      ["list", "filter", "get", "create", "update", "delete", "deleteMany",
       "bulkCreate", "importEntities"] ∧
    entityOpShape name "list" = some .entitySeq ∧
    entityOpShape name "filter" = some .entitySeq ∧
    entityOpShape name "get" = some .entityOne ∧
    entityOpShape name "create" = some .entityOne ∧
    entityOpShape name "update" = some .entityOne ∧
    entityOpShape name "delete" = some .noValue ∧
    entityOpShape name "deleteMany" = some .noValue := by
  refine ⟨rfl, rfl, rfl, rfl, rfl, rfl, rfl, rfl⟩

/-- Minimal JSON value, used for response payloads and identities. -/
inductive JsVal
  | null
  | bool (b : Bool)
  | num (n : Int)
  | str (s : String)
  | arr (elems : List JsVal)
  | obj (fields : List (String × JsVal))

/-- First field of the given name in a JSON object, if any. -/
def JsVal.field (v : JsVal) (k : String) : Option JsVal :=
  match v with
  | .obj fs => (fs.find? (fun p => p.1 = k)).map Prod.snd
  | _ => none

/-- String value of the named field of a JSON object, if it is a string. -/
def JsVal.strField (v : JsVal) (k : String) : Option String :=
  match v.field k with
  | some (.str s) => some s
  | _ => none

/-- The Base44Error class declared in src/unnamed/part_001: a message plus
optional status, code, data and originalError; the raw underlying error is
modelled by its message text. -/
structure Base44Error where
  message : String
  status : Option Nat
  code : Option String
  data : Option JsVal
  originalError : Option String

/-- Outcome of one transport attempt as the request executor observes it:
either an HTTP response with a status and parsed body, or a network-level
failure with no response at all. -/
inductive TransportOutcome
  | response (status : Nat) (body : JsVal)
  | networkFailure (err : String)

/-- Modelled from the spec: the Request Executor implementation is not
under src (the repository ships only its declarations in src/unnamed/part_001
and its README in src/unnamed/part_000), so its failure classification
follows section 4.1 of the spec: a 2xx response resolves with the parsed
body; a non-2xx response rejects with a Base44Error carrying the response
status and any code, message and data parsed from the error body; a
network-level failure rejects with a Base44Error that has no status and
wraps the original error as originalError. -/
def classifyOutcome : TransportOutcome → Except Base44Error JsVal
  | .response s b =>
    if 200 ≤ s ∧ s < 300 then .ok b
    else
      .error
        { message :=
            (b.strField "message").getD ("Request failed with status " ++ toString s)
          status := some s
          code := b.strField "code"
          data := some b
          originalError := none }
  | .networkFailure e =>
      .error
        { message := "Network error", status := none, code := none,
          data := none, originalError := some e }

/-- C5: every failure the request executor surfaces is a Base44Error whose
fields follow the failure's origin: a non-2xx HTTP response yields an error
carrying that status and the response body as data with no originalError,
and a network failure yields an error with no status whose originalError
wraps the raw transport error; the raw error is never the surfaced value
itself. -/
theorem executor_failures_are_base44Error (o : TransportOutcome)
    (e : Base44Error) (h : classifyOutcome o = .error e) :
    (∃ s b, o = .response s b ∧ ¬(200 ≤ s ∧ s < 300) ∧
       e.status = some s ∧ e.data = some b ∧ e.originalError = none) ∨
    (∃ raw, o = .networkFailure raw ∧ e.status = none ∧
       e.originalError = some raw) := by
  cases o with
  | response s b =>
    by_cases hs : 200 ≤ s ∧ s < 300
    · simp [classifyOutcome, hs] at h
    · left
      simp [classifyOutcome, hs] at h
      exact ⟨s, b, rfl, hs, by rw [← h], by rw [← h], by rw [← h]⟩
  | networkFailure raw =>
    right
    simp [classifyOutcome] at h
    exact ⟨raw, rfl, by rw [← h], by rw [← h]⟩

/-- Concrete network failure outcome for witnesses. -/
def demoOutcome : TransportOutcome := .networkFailure "ECONNREFUSED"

/-- Concrete Base44Error the executor builds for demoOutcome. -/
def demoErr : Base44Error :=
  { message := "Network error", status := none, code := none,
    data := none, originalError := some "ECONNREFUSED" }

/-- C5 witness: the classification at a concrete network failure. -/
theorem executor_failures_are_base44Error_witness :
    (∃ s b, demoOutcome = .response s b ∧ ¬(200 ≤ s ∧ s < 300) ∧
       demoErr.status = some s ∧ demoErr.data = some b ∧
       demoErr.originalError = none) ∨
    (∃ raw, demoOutcome = .networkFailure raw ∧ demoErr.status = none ∧
       demoErr.originalError = some raw) :=
  executor_failures_are_base44Error demoOutcome demoErr rfl

/-- appId as declared in src/unnamed/part_001: a string or a number. -/
inductive AppId
  | str (s : String)
  | num (n : Int)
deriving Repr, DecidableEq

/-- Environment enum of the ClientConfig declaration. -/
inductive EnvKind
  | prod
  | dev
deriving Repr, DecidableEq

/-- Configuration object passed to createClient, mirroring a JavaScript
object literal: every field may be left out, so a missing appId is
representable. -/
structure ConfigInput where
  serverUrl : Option String
  appId : Option AppId
  env : Option EnvKind
  token : Option String
  requiresAuth : Option Bool
  autoInitAuth : Option Bool

/-- Synchronous configuration error raised by createClient. -/
inductive ConfigError
  | missingAppId
deriving Repr, DecidableEq

/-- Read-only snapshot returned by getConfig, with the fields the
Base44Client declaration of src/unnamed/part_001 lists for it. -/
structure ConfigSnapshot where
  serverUrl : String
  appId : AppId
  env : EnvKind
  requiresAuth : Bool
deriving Repr, DecidableEq

/-- Outcome of the lightweight identity probe the auth module issues. -/
inductive ProbeOutcome
  | okUser (user : JsVal)
  | httpReject (status : Nat)
  | netFail (err : String)

/-- Modelled from the spec: the auth module implementation is not under
src, so isAuthenticated follows section 4.3 of the spec: it resolves true
exactly when a token is present and the identity probe succeeds, and
resolves false in every other case, downgrading probe failures (HTTP
rejection or network failure) to false instead of rejecting. -/
def isAuthenticated (token : Option String) (probe : ProbeOutcome) :
    Except Base44Error Bool :=
  match token with
  | none => .ok false
  | some _ =>
    match probe with
    | .okUser _ => .ok true
    | .httpReject _ => .ok false
    | .netFail _ => .ok false

/-- C7: isAuthenticated never rejects: for every token state and probe
outcome it resolves with a boolean, true exactly when a token is present
and the identity probe succeeds. -/
theorem isAuthenticated_never_rejects (token : Option String)
    (probe : ProbeOutcome) :
    ∃ b, isAuthenticated token probe = .ok b ∧
      (b = true ↔ token.isSome = true ∧ ∃ u, probe = .okUser u) := by
  cases token with
  | none => exact ⟨false, rfl, by simp⟩
  | some t =>
    cases probe with
    | okUser u => exact ⟨true, rfl, by simp [isAuthenticated]⟩
    | httpReject s => exact ⟨false, rfl, by simp [isAuthenticated]⟩
    | netFail e => exact ⟨false, rfl, by simp [isAuthenticated]⟩

/-- Network call observable during client construction. -/
inductive NetCall
  | request (method : String) (path : String)
deriving Repr, DecidableEq

/-- Modelled from the spec: the composed client object createClient
returns, with the five members the Base44Client interface of
src/unnamed/part_001 declares: entities maps every entity name to its
operation set, integrations maps every package and endpoint name to a
callable that classifies its transport outcome, auth carries the
isAuthenticated check, setToken yields the new current token, and
getConfig is the read-only snapshot. -/
structure Client where
  entities : String → List (String × ResultShape)
  integrations : String → String → JsVal → TransportOutcome → Except Base44Error JsVal
  auth : Option String → ProbeOutcome → Except Base44Error Bool
  setToken : String → Option String
  getConfig : ConfigSnapshot

/-- Modelled from the spec: the createClient implementation is not under
src (only its declaration and README are), so it follows section 4.6 of
the spec: it validates synchronously that appId is present, failing with a
configuration error before any network call when it is missing; otherwise
it applies the serverUrl and env defaults and returns the composed client.
The second component records the network calls made during construction:
none in either case. -/
def createClient (cfg : ConfigInput) : Except ConfigError Client × List NetCall :=
  match cfg.appId with
  | none => (.error .missingAppId, [])
  | some a =>
    (.ok
      { entities := entitiesModule
        integrations := fun _ _ _ o => classifyOutcome o
        auth := isAuthenticated
        setToken := fun t => some t
        getConfig :=
          { serverUrl := cfg.serverUrl.getD "https://base44.app"
            appId := a
            env := cfg.env.getD .prod
            requiresAuth := cfg.requiresAuth.getD false } },
     [])

/-- C6: createClient with no appId fails synchronously with a
configuration error, before any network call; with an appId present it
returns a composed client (carrying the entities, integrations, auth,
setToken and getConfig members) whose snapshot keeps the given appId and
applies the serverUrl and env defaults. -/
theorem createClient_validates_appId (cfg : ConfigInput) :
    (cfg.appId = none →
      createClient cfg = (.error .missingAppId, [])) ∧
    (∀ a, cfg.appId = some a →
      ∃ c, (createClient cfg).1 = .ok c ∧ (createClient cfg).2 = [] ∧
        c.getConfig.appId = a ∧
        c.getConfig.serverUrl = cfg.serverUrl.getD "https://base44.app" ∧
        c.getConfig.env = cfg.env.getD .prod ∧
        c.entities = entitiesModule ∧
        c.auth = isAuthenticated) := by
  constructor
  · intro h
    unfold createClient
    rw [h]
  · intro a ha
    unfold createClient
    rw [ha]
    exact ⟨_, rfl, rfl, rfl, rfl, rfl, rfl, rfl⟩

end MorningWebhook
